import Mathlib

/-!
Shallow embedding of foot_pedal_record_transcribe.py: a push-to-talk
recorder with an adaptive silence-flush stop.  The Python globals
(recording, recorded_frames, stream, stop_requested, stop_request_time,
silence_start) become fields of one state record; each Python function
becomes a state-transition function.  Time is modelled as an exact
rational; audio samples as rationals (one AudioBuffer is a list of
samples).  The spawned stop thread is modelled as running the stop
synchronously inside the callback (sequential interleaving at function
granularity).  Ghost fields (open_streams, start_count, finalize_count,
finalized_frames) instrument the model for counting without changing
behaviour.
-/

-- ==== Configuration constants (source lines 35-37) ====

def SILENCE_THRESHOLD : ℚ := 1/100

def MIN_SILENCE_DURATION : ℚ := 1/2

def MAX_WAIT_AFTER_STOP_REQUEST : ℚ := 2

def OUTPUT_FOLDER : String := "recordings"

-- ==== Audio buffers and RMS ====

/-- One audio block delivered by the device; `indata.copy()` is value
semantics here, so the copy is implicit. -/
abbrev AudioBuffer := List ℚ

def sumSq (b : AudioBuffer) : ℚ := (b.map (fun x => x * x)).sum

/-- `np.mean(indata**2)`.  On an empty array numpy returns NaN;
modelled as `none`. -/
def meanSq (b : AudioBuffer) : Option ℚ :=
  if b.length = 0 then none else some (sumSq b / b.length)

/-- The test `np.sqrt(np.mean(indata**2)) < t` from source line 58/60.
For a nonempty buffer, `sqrt m < t` with `t > 0` and `m ≥ 0` is
equivalent to `m < t * t`, which stays inside ℚ.  For an empty buffer
the mean is NaN, `sqrt NaN` is NaN, and every comparison with NaN is
false, hence the `none` branch yields `false`. -/
def rmsBelow (b : AudioBuffer) (t : ℚ) : Bool :=
  match meanSq b with
  | none => false
  | some m => decide (m < t * t)

-- ==== The global state ====

/-- The module-level mutable globals of the script, plus ghost
instrumentation fields. -/
structure SysState where
  recording : Bool
  recorded_frames : List AudioBuffer
  stream_open : Bool
  stop_requested : Bool
  stop_request_time : Option ℚ
  silence_start : Option ℚ
  -- ghost fields
  open_streams : Nat                       -- number of device streams currently open
  start_count : Nat                        -- how many times start_recording ran its body
  finalize_count : Nat                     -- how many times stop_recording ran its body
  finalized_frames : List (List AudioBuffer)  -- the frame lists handed to processing
  deriving Repr, DecidableEq

/-- Initial values of the globals (source lines 25-32). -/
def init : SysState :=
  { recording := false
    recorded_frames := []
    stream_open := false
    stop_requested := false
    stop_request_time := none
    silence_start := none
    open_streams := 0
    start_count := 0
    finalize_count := 0
    finalized_frames := [] }

-- ==== State transitions ====

/-- `stop_recording` (source lines 87-96): guard on `recording`, then
set it false, stop and close the stream, and hand the accumulated
frames to `process_recording` (recorded here in the ghost log). -/
def stop_recording (s : SysState) : SysState :=
  if s.recording = false then s
  else
    { s with
      recording := false
      stream_open := false
      open_streams := s.open_streams - 1
      finalize_count := s.finalize_count + 1
      finalized_frames := s.finalized_frames ++ [s.recorded_frames] }

/-- `start_recording` (source lines 73-85): guard on `recording`, then
reset all stop/silence state, clear the frames and open a new stream. -/
def start_recording (s : SysState) : SysState :=
  if s.recording then s
  else
    { s with
      recording := true
      stop_requested := false
      silence_start := none
      stop_request_time := none
      recorded_frames := []
      stream_open := true
      open_streams := s.open_streams + 1
      start_count := s.start_count + 1 }

/-- Result of one run of the audio callback: the new state plus which
stop triggers fired (each `true` corresponds to one printed message and
one spawned `stop_recording` in the source). -/
structure CallbackResult where
  state : SysState
  silenceStop : Bool
  timeoutStop : Bool
  deriving Repr, DecidableEq

/-- Silence branch of the callback (source lines 60-67): below the
threshold, start or extend the silence window and possibly stop; at or
above it, reset the window. -/
def silence_step (indata : AudioBuffer) (now : ℚ) (s : SysState) : SysState × Bool :=
  if rmsBelow indata SILENCE_THRESHOLD then
    match s.silence_start with
    | none => ({ s with silence_start := some now }, false)
    | some t0 =>
        if MIN_SILENCE_DURATION ≤ now - t0 then (stop_recording s, true)
        else (s, false)
  else ({ s with silence_start := none }, false)

/-- Timeout branch of the callback (source lines 69-71): force a stop
once the maximum wait after the stop request has elapsed. -/
def timeout_step (now : ℚ) (s : SysState) : SysState × Bool :=
  match s.stop_request_time with
  | some tr =>
      if MAX_WAIT_AFTER_STOP_REQUEST ≤ now - tr then (stop_recording s, true)
      else (s, false)
  | none => (s, false)

/-- `audio_callback` (source lines 49-71): append the (copied) block
unconditionally, then, only when a stop was requested, run the silence
check followed by the independent timeout check.  The threads spawned
for `stop_recording` are modelled as running immediately. -/
def audio_callback (indata : AudioBuffer) (now : ℚ) (s : SysState) : CallbackResult :=
  let s1 := { s with recorded_frames := s.recorded_frames ++ [indata] }
  if s1.stop_requested then
    let p := silence_step indata now s1
    let q := timeout_step now p.1
    { state := q.1, silenceStop := p.2, timeoutStop := q.2 }
  else
    { state := s1, silenceStop := false, timeoutStop := false }

/-- `on_hotkey_press` (source lines 144-147). -/
def on_hotkey_press (s : SysState) : SysState :=
  if s.recording = false then start_recording s else s

/-- `on_hotkey_release` (source lines 149-155). -/
def on_hotkey_release (now : ℚ) (s : SysState) : SysState :=
  if s.recording then
    { s with stop_requested := true, stop_request_time := some now }
  else s

/-- The device delivers a block only while its stream is open (the
capture contract: no callback fires after close returns). -/
def deliverBuffer (indata : AudioBuffer) (now : ℚ) (s : SysState) : CallbackResult :=
  if s.stream_open then audio_callback indata now s
  else { state := s, silenceStop := false, timeoutStop := false }

-- ==== Traces ====

inductive Event where
  | press : Event
  | release : ℚ → Event
  | buffer : AudioBuffer → ℚ → Event
  deriving Repr, DecidableEq

def step (s : SysState) (e : Event) : SysState :=
  match e with
  | .press => on_hotkey_press s
  | .release now => on_hotkey_release now s
  | .buffer b now => (deliverBuffer b now s).state

def run (s : SysState) (es : List Event) : SysState := es.foldl step s

def Reachable (s : SysState) : Prop := ∃ es, run init es = s

-- ==== Finalize: process_recording and transcribe_audio ====

/-- Observable effects of one run of `process_recording`
(source lines 98-118).  `raised` records an exception escaping the
function (the source has no handler around the WAV write). -/
structure SinkEffects where
  wavWritten : Option String
  transcriptionCalls : Nat
  clipboardSet : Option String
  txtWritten : Option (String × String)
  raised : Option String
  deriving Repr, DecidableEq

/-- `transcribe_audio` (source lines 123-139): returns the transcript
text on success and `none` on any exception from the API call. -/
def transcribe_audio (apiResult : Except String String) : Option String :=
  match apiResult with
  | .ok text => some text
  | .error _ => none

def wav_filename (timestamp : String) : String :=
  OUTPUT_FOLDER ++ "/recording_" ++ timestamp ++ ".wav"

def txt_filename (timestamp : String) : String :=
  OUTPUT_FOLDER ++ "/transcription_" ++ timestamp ++ ".txt"

/-- `process_recording` (source lines 98-118).  `persistOk` models
whether `wavfile.write` succeeds (a failure raises out of the function,
since there is no try/except here).  Note the Python truthiness test
`if transcription_text:` is false both for `None` and for the empty
string. -/
def process_recording (frames : List AudioBuffer) (timestamp : String)
    (persistOk : Bool) (apiResult : Except String String) : SinkEffects :=
  if frames.isEmpty then
    { wavWritten := none, transcriptionCalls := 0, clipboardSet := none
      txtWritten := none, raised := none }
  else if persistOk = false then
    { wavWritten := none, transcriptionCalls := 0, clipboardSet := none
      txtWritten := none, raised := some "wav write failed" }
  else
    let transcription_text := transcribe_audio apiResult
    match transcription_text with
    | some t =>
        if t.isEmpty then
          { wavWritten := some (wav_filename timestamp), transcriptionCalls := 1
            clipboardSet := none, txtWritten := none, raised := none }
        else
          { wavWritten := some (wav_filename timestamp), transcriptionCalls := 1
            clipboardSet := some t
            txtWritten := some (txt_filename timestamp, t), raised := none }
    | none =>
        { wavWritten := some (wav_filename timestamp), transcriptionCalls := 1
          clipboardSet := none, txtWritten := none, raised := none }

-- ==== Basic lemmas about the transitions ====

theorem stop_recording_recording (s : SysState) : (stop_recording s).recording = false := by
  unfold stop_recording; split <;> simp_all

theorem stop_recording_of_not_recording (s : SysState) (h : s.recording = false) :
    stop_recording s = s := by
  unfold stop_recording; simp [h]

theorem stop_recording_frames (s : SysState) :
    (stop_recording s).recorded_frames = s.recorded_frames := by
  unfold stop_recording; split <;> rfl

theorem stop_recording_time (s : SysState) :
    (stop_recording s).stop_request_time = s.stop_request_time := by
  unfold stop_recording; split <;> rfl

theorem stop_recording_silence (s : SysState) :
    (stop_recording s).silence_start = s.silence_start := by
  unfold stop_recording; split <;> rfl

theorem stop_recording_finalized (s : SysState) (h : s.recording = true) :
    (stop_recording s).finalized_frames = s.finalized_frames ++ [s.recorded_frames] := by
  unfold stop_recording; simp [h]

/-- The silence branch either fires the stop on the current state, or
only rewrites `silence_start`. -/
theorem silence_step_spec (b : AudioBuffer) (now : ℚ) (s : SysState) :
    ((silence_step b now s).2 = true ∧ (silence_step b now s).1 = stop_recording s) ∨
    ((silence_step b now s).2 = false ∧
      ∃ x, (silence_step b now s).1 = { s with silence_start := x }) := by
  unfold silence_step
  split
  · cases h : s.silence_start with
    | none => exact Or.inr ⟨rfl, some now, rfl⟩
    | some t0 =>
        simp only []
        split
        · exact Or.inl ⟨rfl, rfl⟩
        · exact Or.inr ⟨rfl, s.silence_start, by simp⟩
  · exact Or.inr ⟨rfl, none, rfl⟩

/-- The timeout branch either fires the stop on the current state, or
leaves it untouched. -/
theorem timeout_step_spec (now : ℚ) (s : SysState) :
    ((timeout_step now s).2 = true ∧ (timeout_step now s).1 = stop_recording s) ∨
    ((timeout_step now s).2 = false ∧ (timeout_step now s).1 = s) := by
  unfold timeout_step
  cases h : s.stop_request_time with
  | none => exact Or.inr ⟨rfl, rfl⟩
  | some tr =>
      simp only []
      split
      · exact Or.inl ⟨rfl, rfl⟩
      · exact Or.inr ⟨rfl, rfl⟩

theorem timeout_step_flag (now : ℚ) (s : SysState) (tr : ℚ)
    (h : s.stop_request_time = some tr) :
    ((timeout_step now s).2 = true ↔ MAX_WAIT_AFTER_STOP_REQUEST ≤ now - tr) := by
  unfold timeout_step
  rw [h]
  by_cases hc : MAX_WAIT_AFTER_STOP_REQUEST ≤ now - tr <;> simp [hc]

theorem silence_step_time (b : AudioBuffer) (now : ℚ) (s : SysState) :
    (silence_step b now s).1.stop_request_time = s.stop_request_time := by
  rcases silence_step_spec b now s with ⟨-, h⟩ | ⟨-, x, h⟩
  · rw [h, stop_recording_time]
  · rw [h]

-- ==== The reachable-state invariant ====

/-- State invariant maintained by every transition: the stream is open
exactly while recording; at most one stream is open (and exactly one
while a session is active); a pending stop request always carries its
request time; and each started session accounts for at most one
finalize. -/
def SysInv (s : SysState) : Prop :=
  s.stream_open = s.recording ∧
  s.open_streams = (if s.recording then 1 else 0) ∧
  (s.stop_requested = true → s.stop_request_time.isSome) ∧
  s.finalize_count + (if s.recording then 1 else 0) ≤ s.start_count

theorem inv_init : SysInv init := by
  simp [SysInv, init]

theorem inv_silence_set (s : SysState) (x : Option ℚ) (h : SysInv s) :
    SysInv { s with silence_start := x } := by
  simpa [SysInv] using h

theorem inv_frames_set (s : SysState) (x : List AudioBuffer) (h : SysInv s) :
    SysInv { s with recorded_frames := x } := by
  simpa [SysInv] using h


theorem inv_stop (s : SysState) (h : SysInv s) : SysInv (stop_recording s) := by
  obtain ⟨h1, h2, h3, h4⟩ := h
  cases hr : s.recording with
  | false => rw [stop_recording_of_not_recording s hr]; exact ⟨h1, h2, h3, h4⟩
  | true =>
      rw [hr] at h2 h4
      norm_num at h2 h4
      unfold stop_recording
      rw [hr]
      simp only [Bool.true_eq_false, if_false]
      refine ⟨rfl, ?_, h3, ?_⟩ <;> simp <;> omega

theorem inv_start (s : SysState) (h : SysInv s) : SysInv (start_recording s) := by
  obtain ⟨h1, h2, h3, h4⟩ := h
  cases hr : s.recording with
  | true => unfold start_recording; rw [hr]; simp only [if_true]; exact ⟨h1, h2, h3, h4⟩
  | false =>
      rw [hr] at h2 h4
      norm_num at h2 h4
      unfold start_recording
      rw [hr]
      simp only [Bool.false_eq_true, if_false]
      refine ⟨rfl, ?_, ?_, ?_⟩ <;> simp <;> omega

theorem inv_callback (b : AudioBuffer) (now : ℚ) (s : SysState) (h : SysInv s) :
    SysInv (audio_callback b now s).state := by
  simp only [audio_callback]
  have h1 : SysInv { s with recorded_frames := s.recorded_frames ++ [b] } :=
    inv_frames_set s _ h
  split
  · have hp : SysInv (silence_step b now { s with recorded_frames := s.recorded_frames ++ [b] }).1 := by
      rcases silence_step_spec b now { s with recorded_frames := s.recorded_frames ++ [b] }
        with ⟨-, he⟩ | ⟨-, x, he⟩
      · rw [he]; exact inv_stop _ h1
      · rw [he]; exact inv_silence_set _ _ h1
    rcases timeout_step_spec now (silence_step b now { s with recorded_frames := s.recorded_frames ++ [b] }).1
      with ⟨-, he⟩ | ⟨-, he⟩
    · rw [he]; exact inv_stop _ hp
    · rw [he]; exact hp
  · exact h1

theorem inv_step (s : SysState) (e : Event) (h : SysInv s) : SysInv (step s e) := by
  cases e with
  | press =>
      simp only [step, on_hotkey_press]
      split
      · exact inv_start s h
      · exact h
  | release now =>
      simp only [step, on_hotkey_release]
      split
      · obtain ⟨h1, h2, h3, h4⟩ := h
        exact ⟨h1, h2, by simp, h4⟩
      · exact h
  | buffer b now =>
      simp only [step, deliverBuffer]
      split
      · exact inv_callback b now s h
      · exact h

theorem inv_run (s : SysState) (es : List Event) (h : SysInv s) : SysInv (run s es) := by
  induction es generalizing s with
  | nil => exact h
  | cons e es ih => exact ih (step s e) (inv_step s e h)

theorem reachable_inv (s : SysState) (h : Reachable s) : SysInv s := by
  obtain ⟨es, he⟩ := h
  rw [← he]
  exact inv_run init es inv_init

-- ==== Claim theorems ====

/-- Claim C1: timeout dominance of the stop decision.  For every buffer
processed while a stop has been requested, the request time is present,
and the callback fires the timeout stop exactly when
`now - stopRequestedAt ≥ MAX_WAIT_AFTER_STOP_REQUEST` — independently
of the RMS of the buffer and of the silence-tracking state (both are
universally quantified here), and never earlier. -/
theorem timeout_dominance (s : SysState) (hs : Reachable s)
    (hreq : s.stop_requested = true) (b : AudioBuffer) (now : ℚ) :
    ∃ tr, s.stop_request_time = some tr ∧
      ((audio_callback b now s).timeoutStop = true ↔
        MAX_WAIT_AFTER_STOP_REQUEST ≤ now - tr) := by
  obtain ⟨-, -, h3, -⟩ := reachable_inv s hs
  obtain ⟨tr, htr⟩ := Option.isSome_iff_exists.mp (h3 hreq)
  refine ⟨tr, htr, ?_⟩
  simp only [audio_callback, hreq, if_true]
  exact timeout_step_flag now _ tr (by rw [silence_step_time]; exact htr)

/-- Witness for C1 at a concrete run: press, release at time 0, then a
loud buffer at time 2 — the timeout stop fires even though the buffer
is far from silent. -/
theorem timeout_dominance_witness :
    (audio_callback [1] 2 (run init [Event.press, Event.release 0])).timeoutStop = true := by
  obtain ⟨tr, htr, hiff⟩ := timeout_dominance (run init [Event.press, Event.release 0])
    ⟨[Event.press, Event.release 0], rfl⟩
    (by norm_num [run, step, init, on_hotkey_press, on_hotkey_release, start_recording]) [1] 2
  have hval : (run init [Event.press, Event.release 0]).stop_request_time = some 0 := by
    norm_num [run, step, init, on_hotkey_press, on_hotkey_release, start_recording]
  rw [hval] at htr
  have htr0 : tr = 0 := by injection htr with h; exact h.symm
  subst htr0
  exact hiff.mpr (by norm_num [MAX_WAIT_AFTER_STOP_REQUEST])

theorem timeout_step_silence (now : ℚ) (s : SysState) :
    (timeout_step now s).1.silence_start = s.silence_start := by
  rcases timeout_step_spec now s with ⟨-, he⟩ | ⟨-, he⟩
  · rw [he, stop_recording_silence]
  · rw [he]

/-- Claim C2: the silence-detection algorithm.  While a stop is
requested: a silent buffer starts the silence window at `now` when none
was running (no silence stop fires, i.e. the silence step decides
Continue); with a running window the silence stop fires exactly when
`now - silenceStartedAt ≥ MIN_SILENCE_DURATION` (and the window is kept
as is); a non-silent buffer resets the window to none and fires no
silence stop. -/
theorem silence_detection_algorithm (s : SysState) (hreq : s.stop_requested = true)
    (b : AudioBuffer) (now : ℚ) :
    (rmsBelow b SILENCE_THRESHOLD = true → s.silence_start = none →
      (audio_callback b now s).state.silence_start = some now ∧
      (audio_callback b now s).silenceStop = false) ∧
    (∀ t0, rmsBelow b SILENCE_THRESHOLD = true → s.silence_start = some t0 →
      ((audio_callback b now s).silenceStop = true ↔ MIN_SILENCE_DURATION ≤ now - t0) ∧
      (audio_callback b now s).state.silence_start = some t0) ∧
    (rmsBelow b SILENCE_THRESHOLD = false →
      (audio_callback b now s).state.silence_start = none ∧
      (audio_callback b now s).silenceStop = false) := by
  simp only [audio_callback, hreq, if_true]
  refine ⟨?_, ?_, ?_⟩
  · intro hr hn
    constructor
    · rw [timeout_step_silence]
      simp [silence_step, hr, hn]
    · simp [silence_step, hr, hn]
  · intro t0 hr ht
    constructor
    · simp only [silence_step, hr, if_true]
      simp only [ht]
      split <;> simp_all
    · rw [timeout_step_silence]
      simp only [silence_step, hr, if_true, ht]
      split <;> simp [stop_recording_silence, ht]
  · intro hr
    constructor
    · rw [timeout_step_silence]
      simp [silence_step, hr]
    · simp [silence_step, hr]

/-- Witness for C2 at a concrete run: after press and release at time
0 with no silence window running, a silent buffer at time 1 starts the
window at 1 and fires no silence stop. -/
theorem silence_detection_algorithm_witness :
    (audio_callback [0] 1 (run init [Event.press, Event.release 0])).state.silence_start = some 1 ∧
    (audio_callback [0] 1 (run init [Event.press, Event.release 0])).silenceStop = false := by
  refine (silence_detection_algorithm (run init [Event.press, Event.release 0])
    (by norm_num [run, step, init, on_hotkey_press, on_hotkey_release, start_recording]) [0] 1).1
    ?_ ?_
  · norm_num [rmsBelow, meanSq, sumSq, SILENCE_THRESHOLD]
  · norm_num [run, step, init, on_hotkey_press, on_hotkey_release, start_recording]

/-- Claim C3: finalize runs at most once per session.  A stop
invocation while recording is already false changes no state; a stop
invocation while recording runs the finalize path exactly once (stream
closed, frames handed over, recording cleared); and along every
reachable execution each started session accounts for at most one
finalize. -/
theorem finalize_at_most_once :
    (∀ s : SysState, s.recording = false → stop_recording s = s) ∧
    (∀ s : SysState, s.recording = true →
      (stop_recording s).recording = false ∧
      (stop_recording s).finalize_count = s.finalize_count + 1 ∧
      stop_recording (stop_recording s) = stop_recording s) ∧
    (∀ s : SysState, Reachable s →
      s.finalize_count + (if s.recording then 1 else 0) ≤ s.start_count) := by
  refine ⟨stop_recording_of_not_recording, ?_, ?_⟩
  · intro s h
    refine ⟨stop_recording_recording s, ?_, ?_⟩
    · unfold stop_recording
      simp [h]
    · exact stop_recording_of_not_recording _ (stop_recording_recording s)
  · intro s hs
    exact (reachable_inv s hs).2.2.2

/-- Witness for C3: a session where one buffer makes the silence and
timeout triggers fire on the same callback (time 3, silent buffer,
window open since 0, release at 0) still finalizes exactly once, and a
second stop invocation afterwards is a no-op. -/
theorem finalize_at_most_once_witness :
    (deliverBuffer [0] 3 (run init [Event.press, Event.release 0, Event.buffer [0] 0])).silenceStop = true ∧
    (deliverBuffer [0] 3 (run init [Event.press, Event.release 0, Event.buffer [0] 0])).timeoutStop = true ∧
    (run init [Event.press, Event.release 0, Event.buffer [0] 0, Event.buffer [0] 3]).finalize_count = 1 ∧
    stop_recording (run init [Event.press, Event.release 0, Event.buffer [0] 0, Event.buffer [0] 3]) =
      run init [Event.press, Event.release 0, Event.buffer [0] 0, Event.buffer [0] 3] ∧
    (run init [Event.press, Event.release 0, Event.buffer [0] 0, Event.buffer [0] 3]).finalize_count +
        (if (run init [Event.press, Event.release 0, Event.buffer [0] 0, Event.buffer [0] 3]).recording
          then 1 else 0) ≤
      (run init [Event.press, Event.release 0, Event.buffer [0] 0, Event.buffer [0] 3]).start_count := by
  refine ⟨?_, ?_, ?_, ?_, ?_⟩
  · norm_num [run, step, init, on_hotkey_press, on_hotkey_release, start_recording,
      deliverBuffer, audio_callback, silence_step, timeout_step, stop_recording,
      rmsBelow, meanSq, sumSq, SILENCE_THRESHOLD, MIN_SILENCE_DURATION, MAX_WAIT_AFTER_STOP_REQUEST]
  · norm_num [run, step, init, on_hotkey_press, on_hotkey_release, start_recording,
      deliverBuffer, audio_callback, silence_step, timeout_step, stop_recording,
      rmsBelow, meanSq, sumSq, SILENCE_THRESHOLD, MIN_SILENCE_DURATION, MAX_WAIT_AFTER_STOP_REQUEST]
  · norm_num [run, step, init, on_hotkey_press, on_hotkey_release, start_recording,
      deliverBuffer, audio_callback, silence_step, timeout_step, stop_recording,
      rmsBelow, meanSq, sumSq, SILENCE_THRESHOLD, MIN_SILENCE_DURATION, MAX_WAIT_AFTER_STOP_REQUEST]
  · exact finalize_at_most_once.1 _ (by
      norm_num [run, step, init, on_hotkey_press, on_hotkey_release, start_recording,
        deliverBuffer, audio_callback, silence_step, timeout_step, stop_recording,
        rmsBelow, meanSq, sumSq, SILENCE_THRESHOLD, MIN_SILENCE_DURATION, MAX_WAIT_AFTER_STOP_REQUEST])
  · exact finalize_at_most_once.2.2 _
      ⟨[Event.press, Event.release 0, Event.buffer [0] 0, Event.buffer [0] 3], rfl⟩

/-- Claim C4: no buffer is appended after finalize.  Once the session
has finalized (recording is false and, by the invariant, the stream is
closed), a delivered buffer leaves the frame sequence — in fact the
whole state — unchanged. -/
theorem no_append_after_finalize (s : SysState) (hs : Reachable s)
    (hfin : s.recording = false) (b : AudioBuffer) (now : ℚ) :
    (deliverBuffer b now s).state.recorded_frames = s.recorded_frames ∧
    (deliverBuffer b now s).state = s := by
  have h1 := (reachable_inv s hs).1
  rw [hfin] at h1
  have : deliverBuffer b now s = { state := s, silenceStop := false, timeoutStop := false } := by
    unfold deliverBuffer
    rw [h1]
    simp
  rw [this]
  exact ⟨rfl, rfl⟩

/-- Witness for C4: after the session above finalized at time 3, a loud
buffer delivered at time 4 changes nothing. -/
theorem no_append_after_finalize_witness :
    (deliverBuffer [1] 4 (run init [Event.press, Event.release 0, Event.buffer [0] 0,
        Event.buffer [0] 3])).state.recorded_frames =
      (run init [Event.press, Event.release 0, Event.buffer [0] 0, Event.buffer [0] 3]).recorded_frames ∧
    (deliverBuffer [1] 4 (run init [Event.press, Event.release 0, Event.buffer [0] 0,
        Event.buffer [0] 3])).state =
      run init [Event.press, Event.release 0, Event.buffer [0] 0, Event.buffer [0] 3] := by
  exact no_append_after_finalize _
    ⟨[Event.press, Event.release 0, Event.buffer [0] 0, Event.buffer [0] 3], rfl⟩
    (by norm_num [run, step, init, on_hotkey_press, on_hotkey_release, start_recording,
      deliverBuffer, audio_callback, silence_step, timeout_step, stop_recording,
      rmsBelow, meanSq, sumSq, SILENCE_THRESHOLD, MIN_SILENCE_DURATION, MAX_WAIT_AFTER_STOP_REQUEST])
    [1] 4

/-- Claim C5: mutual exclusion of sessions.  In every reachable state
at most one capture stream is open (so at most one session is active),
and a press arriving while recording is already in progress is a
complete no-op: no new stream, frames and timestamps untouched. -/
theorem session_mutual_exclusion (s : SysState) (hs : Reachable s) :
    s.open_streams ≤ 1 ∧
    (s.recording = true → on_hotkey_press s = s) := by
  obtain ⟨-, h2, -, -⟩ := reachable_inv s hs
  constructor
  · rw [h2]; split <;> omega
  · intro hr
    unfold on_hotkey_press
    rw [hr]
    simp

/-- Witness for C5: right after a press the single stream is open and a
second press changes nothing. -/
theorem session_mutual_exclusion_witness :
    (run init [Event.press]).open_streams ≤ 1 ∧
    on_hotkey_press (run init [Event.press]) = run init [Event.press] := by
  have h := session_mutual_exclusion (run init [Event.press]) ⟨[Event.press], rfl⟩
  exact ⟨h.1, h.2 (by norm_num [run, step, init, on_hotkey_press, start_recording])⟩

/-- Claim C6: empty-recording handling.  When finalize runs with zero
recorded buffers the sink is never touched: no WAV file, no
transcription call, no clipboard write, no text file, no exception —
and the stop path always leaves recording false, so the session is back
to Idle. -/
theorem empty_recording_no_sink :
    (∀ (ts : String) (persistOk : Bool) (apiResult : Except String String),
      process_recording [] ts persistOk apiResult =
        { wavWritten := none, transcriptionCalls := 0, clipboardSet := none,
          txtWritten := none, raised := none }) ∧
    (∀ s : SysState, (stop_recording s).recording = false) := by
  exact ⟨fun ts persistOk apiResult => by simp [process_recording], stop_recording_recording⟩

/-- Claim C7 (amendable part proven as stated): sink failures are
non-fatal.  A transcription backend failure gets exactly one attempt
(no retry) and touches neither clipboard nor text file; a persistence
failure makes zero transcription attempts and propagates as an
exception, again with no retry; and independently of the sink outcome
the stop path has already reset recording to false, from where a new
session can start. -/
theorem sink_failure_nonfatal :
    (∀ (frames : List AudioBuffer) (ts e : String), frames ≠ [] →
      process_recording frames ts true (Except.error e) =
        { wavWritten := some (wav_filename ts), transcriptionCalls := 1,
          clipboardSet := none, txtWritten := none, raised := none }) ∧
    (∀ (frames : List AudioBuffer) (ts : String) (apiResult : Except String String),
      frames ≠ [] →
      process_recording frames ts false apiResult =
        { wavWritten := none, transcriptionCalls := 0, clipboardSet := none,
          txtWritten := none, raised := some "wav write failed" }) ∧
    (∀ s : SysState, (stop_recording s).recording = false ∧
      (start_recording (stop_recording s)).recording = true) := by
  refine ⟨?_, ?_, ?_⟩
  · intro frames ts e h
    simp [process_recording, transcribe_audio, h]
  · intro frames ts apiResult h
    simp [process_recording, h]
  · intro s
    refine ⟨stop_recording_recording s, ?_⟩
    unfold start_recording
    rw [stop_recording_recording s]
    simp

/-- Witness for C7: one recorded buffer, failing backend and failing
WAV write, plus the stop/start round trip from the initial state. -/
theorem sink_failure_nonfatal_witness :
    process_recording [[0]] "20250101_000000" true (Except.error "boom") =
      { wavWritten := some (wav_filename "20250101_000000"), transcriptionCalls := 1,
        clipboardSet := none, txtWritten := none, raised := none } ∧
    process_recording [[0]] "20250101_000000" false (Except.ok "hi") =
      { wavWritten := none, transcriptionCalls := 0, clipboardSet := none,
        txtWritten := none, raised := some "wav write failed" } ∧
    (stop_recording init).recording = false := by
  refine ⟨sink_failure_nonfatal.1 [[0]] "20250101_000000" "boom" (by simp),
    sink_failure_nonfatal.2.1 [[0]] "20250101_000000" (Except.ok "hi") (by simp),
    (sink_failure_nonfatal.2.2 init).1⟩

/-- Counterexample for C8 as stated.  The claim says a zero-sample
buffer is classified as silent (RMS below SILENCE_THRESHOLD).  In the
code `np.mean` of an empty array is NaN, `np.sqrt(NaN)` is NaN, and
`NaN < SILENCE_THRESHOLD` is false, so the buffer takes the non-silent
branch.  Concretely: with the silence window open since time 0 and a
stop requested at 0, an empty buffer at time 1 would fire the silence
stop if it were classified silent (1 - 0 ≥ MIN_SILENCE_DURATION);
instead it fires nothing and resets the window. -/
theorem zero_sample_buffer_cx :
    rmsBelow [] SILENCE_THRESHOLD = false ∧
    (audio_callback [] 1 (run init [Event.press, Event.release 0,
        Event.buffer [0] 0])).silenceStop = false ∧
    (audio_callback [] 1 (run init [Event.press, Event.release 0,
        Event.buffer [0] 0])).state.silence_start = none ∧
    (run init [Event.press, Event.release 0, Event.buffer [0] 0]).silence_start = some 0 := by
  refine ⟨rfl, ?_, ?_, ?_⟩ <;>
    norm_num [run, step, init, on_hotkey_press, on_hotkey_release, start_recording,
      deliverBuffer, audio_callback, silence_step, timeout_step, stop_recording,
      rmsBelow, meanSq, sumSq, SILENCE_THRESHOLD, MIN_SILENCE_DURATION, MAX_WAIT_AFTER_STOP_REQUEST]

/-- Amended C8: a zero-sample buffer has NaN RMS, every comparison with
NaN is false, so the silence check classifies it as NON-silent: the
silence window is reset to none and no silence stop fires. -/
theorem zero_sample_buffer_nonsilent (s : SysState) (now : ℚ)
    (hreq : s.stop_requested = true) :
    rmsBelow [] SILENCE_THRESHOLD = false ∧
    (audio_callback [] now s).silenceStop = false ∧
    (audio_callback [] now s).state.silence_start = none := by
  have h := (silence_detection_algorithm s hreq [] now).2.2 rfl
  exact ⟨rfl, h.2, h.1⟩

/-- Witness for the amended C8 at a concrete state. -/
theorem zero_sample_buffer_nonsilent_witness :
    rmsBelow [] SILENCE_THRESHOLD = false ∧
    (audio_callback [] 1 (run init [Event.press, Event.release 0])).silenceStop = false ∧
    (audio_callback [] 1 (run init [Event.press, Event.release 0])).state.silence_start = none := by
  exact zero_sample_buffer_nonsilent (run init [Event.press, Event.release 0]) 1
    (by norm_num [run, step, init, on_hotkey_press, on_hotkey_release, start_recording])

/-- Counterexample for C9 as stated.  The claim says that exactly when
transcription succeeds (returns text) the text goes to the clipboard
and to the transcription file.  The code guards with Python truthiness
(`if transcription_text:`), which is false for the empty string, so a
successful transcription returning "" produces neither a clipboard
write nor a text file. -/
theorem empty_transcript_cx :
    transcribe_audio (Except.ok "") = some "" ∧
    (process_recording [[0]] "19700101_000000" true (Except.ok "")).clipboardSet = none ∧
    (process_recording [[0]] "19700101_000000" true (Except.ok "")).txtWritten = none ∧
    (process_recording [[0]] "19700101_000000" true (Except.ok "")).transcriptionCalls = 1 := by
  refine ⟨rfl, ?_, ?_, ?_⟩ <;> simp [process_recording, transcribe_audio, String.isEmpty_iff]

/-- Amended C9: for every finalized session with a non-empty frame
sequence (and a successful WAV write), the WAV file
recording_<timestamp>.wav is written; exactly when transcription
succeeds with NON-empty text, that text goes to the clipboard and to
transcription_<timestamp>.txt with the same timestamp; on transcription
failure, or on an empty transcript, neither happens. -/
theorem success_artifacts (frames : List AudioBuffer) (ts : String)
    (h : frames ≠ []) :
    (∀ text : String, text ≠ "" →
      process_recording frames ts true (Except.ok text) =
        { wavWritten := some (wav_filename ts), transcriptionCalls := 1,
          clipboardSet := some text, txtWritten := some (txt_filename ts, text),
          raised := none }) ∧
    (process_recording frames ts true (Except.ok "") =
      { wavWritten := some (wav_filename ts), transcriptionCalls := 1,
        clipboardSet := none, txtWritten := none, raised := none }) ∧
    (∀ e : String,
      process_recording frames ts true (Except.error e) =
        { wavWritten := some (wav_filename ts), transcriptionCalls := 1,
          clipboardSet := none, txtWritten := none, raised := none }) := by
  refine ⟨?_, ?_, ?_⟩
  · intro text htext
    have : text.isEmpty = false := by
      rw [← Bool.not_eq_true, String.isEmpty_iff]
      exact htext
    simp [process_recording, transcribe_audio, h, this]
  · simp [process_recording, transcribe_audio, h, String.isEmpty_iff]
  · intro e
    simp [process_recording, transcribe_audio, h]

/-- Witness for the amended C9 with one buffer and transcript "hello". -/
theorem success_artifacts_witness :
    process_recording [[0]] "20250101_000000" true (Except.ok "hello") =
      { wavWritten := some (wav_filename "20250101_000000"), transcriptionCalls := 1,
        clipboardSet := some "hello",
        txtWritten := some (txt_filename "20250101_000000", "hello"), raised := none } ∧
    process_recording [[0]] "20250101_000000" true (Except.error "down") =
      { wavWritten := some (wav_filename "20250101_000000"), transcriptionCalls := 1,
        clipboardSet := none, txtWritten := none, raised := none } := by
  exact ⟨(success_artifacts [[0]] "20250101_000000" (by simp)).1 "hello" (by simp),
    (success_artifacts [[0]] "20250101_000000" (by simp)).2.2 "down"⟩

theorem silence_step_frames (b : AudioBuffer) (now : ℚ) (s : SysState) :
    (silence_step b now s).1.recorded_frames = s.recorded_frames := by
  rcases silence_step_spec b now s with ⟨-, he⟩ | ⟨-, x, he⟩
  · rw [he, stop_recording_frames]
  · rw [he]

theorem timeout_step_frames (now : ℚ) (s : SysState) :
    (timeout_step now s).1.recorded_frames = s.recorded_frames := by
  rcases timeout_step_spec now s with ⟨-, he⟩ | ⟨-, he⟩
  · rw [he, stop_recording_frames]
  · rw [he]

theorem audio_callback_state (b : AudioBuffer) (now : ℚ) (s : SysState)
    (hq : s.stop_requested = true) :
    (audio_callback b now s).state =
      (timeout_step now (silence_step b now
        { s with recorded_frames := s.recorded_frames ++ [b] }).1).1 := by
  simp only [audio_callback]
  split
  · rfl
  · simp_all

theorem audio_callback_silence_flag (b : AudioBuffer) (now : ℚ) (s : SysState)
    (hq : s.stop_requested = true) :
    (audio_callback b now s).silenceStop =
      (silence_step b now { s with recorded_frames := s.recorded_frames ++ [b] }).2 := by
  simp only [audio_callback]
  split
  · rfl
  · simp_all

theorem audio_callback_timeout_flag (b : AudioBuffer) (now : ℚ) (s : SysState)
    (hq : s.stop_requested = true) :
    (audio_callback b now s).timeoutStop =
      (timeout_step now (silence_step b now
        { s with recorded_frames := s.recorded_frames ++ [b] }).1).2 := by
  simp only [audio_callback]
  split
  · rfl
  · simp_all

theorem audio_callback_not_requested (b : AudioBuffer) (now : ℚ) (s : SysState)
    (hq : s.stop_requested = false) :
    audio_callback b now s =
      { state := { s with recorded_frames := s.recorded_frames ++ [b] },
        silenceStop := false, timeoutStop := false } := by
  simp only [audio_callback]
  split
  · simp_all
  · rfl

/-- Claim C10: every delivered buffer is appended (by value, i.e. as a
copy) to the frame sequence before the stop decision is evaluated, so
whenever a stop trigger fires on a buffer while recording, the frames
handed to finalize end with the buffer that triggered the stop. -/
theorem buffer_appended_before_decision (s : SysState) (b : AudioBuffer) (now : ℚ) :
    (audio_callback b now s).state.recorded_frames = s.recorded_frames ++ [b] ∧
    (s.recording = true →
      ((audio_callback b now s).silenceStop = true ∨
        (audio_callback b now s).timeoutStop = true) →
      (audio_callback b now s).state.finalized_frames =
        s.finalized_frames ++ [s.recorded_frames ++ [b]] ∧
      b ∈ s.recorded_frames ++ [b]) := by
  by_cases hq : s.stop_requested = true
  · constructor
    · rw [audio_callback_state b now s hq, timeout_step_frames, silence_step_frames]
    · intro hrec htrig
      rw [audio_callback_silence_flag b now s hq,
        audio_callback_timeout_flag b now s hq] at htrig
      rw [audio_callback_state b now s hq]
      refine ⟨?_, by simp⟩
      rcases silence_step_spec b now
          { s with recorded_frames := s.recorded_frames ++ [b] } with ⟨-, he⟩ | ⟨hfl, x, he⟩
      · rw [he]
        have hfin : (stop_recording
            { s with recorded_frames := s.recorded_frames ++ [b] }).finalized_frames =
            s.finalized_frames ++ [s.recorded_frames ++ [b]] :=
          stop_recording_finalized _ hrec
        rcases timeout_step_spec now (stop_recording
            { s with recorded_frames := s.recorded_frames ++ [b] }) with ⟨-, he2⟩ | ⟨-, he2⟩
        · rw [he2, stop_recording_of_not_recording _ (stop_recording_recording _)]
          exact hfin
        · rw [he2]; exact hfin
      · rw [hfl] at htrig
        rw [he] at htrig ⊢
        rcases timeout_step_spec now
            { s with recorded_frames := s.recorded_frames ++ [b], silence_start := x }
            with ⟨-, he2⟩ | ⟨hfl2, he2⟩
        · rw [he2]
          exact stop_recording_finalized _ hrec
        · rw [hfl2] at htrig
          simp at htrig
  · constructor
    · rw [audio_callback_not_requested b now s (by simp_all)]
    · intro hrec htrig
      rw [audio_callback_not_requested b now s (by simp_all)] at htrig
      simp at htrig

/-- Witness for C10: the silent buffer at time 3 that triggers the stop
is itself the last frame handed to finalize. -/
theorem buffer_appended_before_decision_witness :
    (audio_callback [0] 3 (run init [Event.press, Event.release 0,
        Event.buffer [0] 0])).state.recorded_frames =
      (run init [Event.press, Event.release 0, Event.buffer [0] 0]).recorded_frames ++ [[0]] ∧
    (audio_callback [0] 3 (run init [Event.press, Event.release 0,
        Event.buffer [0] 0])).state.finalized_frames =
      (run init [Event.press, Event.release 0, Event.buffer [0] 0]).finalized_frames ++
        [(run init [Event.press, Event.release 0, Event.buffer [0] 0]).recorded_frames ++ [[0]]] := by
  have h := buffer_appended_before_decision
    (run init [Event.press, Event.release 0, Event.buffer [0] 0]) [0] 3
  refine ⟨h.1, (h.2 ?_ (Or.inl ?_)).1⟩
  · norm_num [run, step, init, on_hotkey_press, on_hotkey_release, start_recording,
      deliverBuffer, audio_callback, silence_step, timeout_step, stop_recording,
      rmsBelow, meanSq, sumSq, SILENCE_THRESHOLD, MIN_SILENCE_DURATION, MAX_WAIT_AFTER_STOP_REQUEST]
  · norm_num [run, step, init, on_hotkey_press, on_hotkey_release, start_recording,
      deliverBuffer, audio_callback, silence_step, timeout_step, stop_recording,
      rmsBelow, meanSq, sumSq, SILENCE_THRESHOLD, MIN_SILENCE_DURATION, MAX_WAIT_AFTER_STOP_REQUEST]
